import Mathlib

/-!
Verification development for the MindLedger AI-assistant core:
shallow embedding of the sensitivity classifier, semantic cache,
SQL query executor, retrieval service and chat orchestrator, with
theorems settling the behavioural claims about them.

Python strings are modelled as Lean `String`, floats as `ℝ` (for the
embedding-similarity arithmetic, which uses a square root) or `ℚ`
(where only exact field arithmetic occurs), dictionaries keyed by
known fields as structures, and raised exceptions as `Except` values.
External collaborators that are out of scope (the relational store,
the embedding microservice, the LLM providers) appear as explicit
function-valued parameters; mutable stores are threaded as explicit
state values.
-/

namespace MindLedger

/-! ### Python string primitives

Models of the Python string operations the source uses:
`s.lower()`, `s.strip()`, `s.split()`, and the substring test
`pat in s`. -/

/-- Model of Python `str.lower()` (the source only lowercases
keyword-comparison inputs, which are ASCII apart from accented
vowels that lowercasing leaves unchanged). -/
def pyLower (s : String) : String :=
  ⟨s.data.map Char.toLower⟩

/-- Remove leading and trailing whitespace from a character list. -/
def trimChars (l : List Char) : List Char :=
  ((l.dropWhile Char.isWhitespace).reverse.dropWhile Char.isWhitespace).reverse

/-- Model of Python `str.strip()`: remove leading and trailing
whitespace. -/
def pyStrip (s : String) : String :=
  ⟨trimChars s.data⟩

/-- Accumulator loop splitting a character list on whitespace runs. -/
def wordsAux : List Char → List Char → List (List Char)
  | [], acc => if acc.isEmpty then [] else [acc.reverse]
  | c :: t, acc =>
    if c.isWhitespace then
      (if acc.isEmpty then wordsAux t [] else acc.reverse :: wordsAux t [])
    else wordsAux t (c :: acc)

/-- Model of Python `str.split()` with no argument: split on runs of
whitespace, discarding empty pieces. -/
def pyWords (s : String) : List String :=
  (wordsAux s.data []).map (fun l => (⟨l⟩ : String))

/-- Sublist-containment test on character lists: `True` iff `pat`
occurs contiguously inside `l`. -/
def listHasSub (pat : List Char) : List Char → Bool
  | [] => pat.isEmpty
  | c :: t => pat.isPrefixOf (c :: t) || listHasSub pat t

/-- Model of Python `pat in s` for strings (substring containment). -/
def pyIn (pat s : String) : Bool :=
  listHasSub pat.data s.data

/-! ### Sensitivity and content-kind constants

Modelled from the spec: the sensitivity enum (low / medium / high) and
the restricted content kind. The enum classes live in a module absent
from the source tree; their string values are pinned by the in-tree
uses (`'baixa'`, `'media'`, `'alta'`, and the `'seguranca'` kind). -/

/-- Modelled from the spec: low sensitivity. -/
def Sensibilidade.BAIXA : String := "baixa"

/-- Modelled from the spec: medium sensitivity. -/
def Sensibilidade.MEDIA : String := "media"

/-- Modelled from the spec: high sensitivity. -/
def Sensibilidade.ALTA : String := "alta"

/-- Modelled from the spec: the restricted (security) content kind. -/
def TipoConteudo.SEGURANCA : String := "seguranca"

/-- Modelled from the spec: the fields of an `IndexedContent` record
that the core components read (the Django model itself is not under
the source tree). -/
structure ContentEmbedding where
  content_type : String
  content_id : Nat
  tipo : String
  sensibilidade : String
  texto_original : String
  deriving DecidableEq, Repr

/-- One retrieval result: a content record plus similarity score and
cosine distance (`retrieval/service.py`, `RetrievalResult`). -/
structure RetrievalResult where
  content_embedding : ContentEmbedding
  score : ℚ
  distance : ℚ
  deriving DecidableEq, Repr

/-- Property delegating to the underlying record, as in the source. -/
def RetrievalResult.tipo (r : RetrievalResult) : String :=
  r.content_embedding.tipo

/-- Property delegating to the underlying record, as in the source. -/
def RetrievalResult.sensibilidade (r : RetrievalResult) : String :=
  r.content_embedding.sensibilidade

/-! ### Sensitivity classifier (`llm_router/sensitivity.py`) -/

/-- Query complexity levels (`QueryComplexity`). -/
inductive QueryComplexity where
  | greeting
  | simple
  | moderate
  | complex
  deriving DecidableEq, Repr

/-- Keywords that suggest complex reasoning (`COMPLEX_KEYWORDS`). -/
def COMPLEX_KEYWORDS : List String :=
  ["analise", "compare", "explique", "por que", "porque",
   "qual a diferenca", "resuma", "sintetize", "avalie",
   "quanto gastei", "total", "soma", "media", "tendencia",
   "previsao", "planeje", "sugira", "recomende"]

/-- Keywords that suggest simple queries (`SIMPLE_KEYWORDS`). -/
def SIMPLE_KEYWORDS : List String :=
  ["qual", "quais", "quando", "onde", "quem",
   "existe", "tem", "ha", "mostre", "liste"]

/-- Security-related keywords (`SECURITY_KEYWORDS`). -/
def SECURITY_KEYWORDS : List String :=
  ["senha", "senhas", "password", "credencial", "login",
   "usuario", "cartao", "cvv", "codigo", "seguranca",
   "arquivo", "secreto", "privado"]

/-- Greeting keywords (`GREETING_KEYWORDS`). -/
def GREETING_KEYWORDS : List String :=
  ["oi", "ola", "bom dia", "boa tarde", "boa noite",
   "hey", "hello", "hi", "e ai", "eai", "tudo bem",
   "como vai", "opa", "fala", "salve", "obrigado",
   "obrigada", "valeu", "vlw", "brigado", "tchau",
   "ate mais", "ate logo", "ajuda", "me ajuda",
   "o que voce faz", "o que você faz", "quem e voce",
   "quem é você", "pode me ajudar"]

/-- Result of sensitivity analysis (`SensitivityAnalysis`). -/
structure SensitivityAnalysis where
  max_sensitivity : String
  has_security_content : Bool
  query_complexity : QueryComplexity
  requires_local : Bool
  reason : String
  deriving Repr

/-- The `sensitivity_order` lookup of `_get_max_sensitivity`, with the
dictionary default of `0` for unknown levels. -/
def sensitivityOrder (level : String) : Nat :=
  if level = Sensibilidade.BAIXA then 0
  else if level = Sensibilidade.MEDIA then 1
  else if level = Sensibilidade.ALTA then 2
  else 0

/-- The scanning loop of `_get_max_sensitivity`: keeps the level with
the strictly largest order seen so far. -/
def maxSensitivityLoop : List RetrievalResult → String → Nat → String × Nat
  | [], maxLevel, maxOrder => (maxLevel, maxOrder)
  | r :: rest, maxLevel, maxOrder =>
    let o := sensitivityOrder r.sensibilidade
    if maxOrder < o then maxSensitivityLoop rest r.sensibilidade o
    else maxSensitivityLoop rest maxLevel maxOrder

/-- `SensitivityClassifier._get_max_sensitivity`. -/
def SensitivityClassifier.getMaxSensitivity (results : List RetrievalResult) : String :=
  if results.isEmpty then Sensibilidade.BAIXA
  else (maxSensitivityLoop results Sensibilidade.BAIXA 0).1

/-- `SensitivityClassifier._has_security_content`. -/
def SensitivityClassifier.hasSecurityContent (results : List RetrievalResult) : Bool :=
  results.any (fun r => r.tipo = TipoConteudo.SEGURANCA)

/-- `SensitivityClassifier._is_greeting` (the argument is already the
lowered query; the method strips and lowers again). -/
def SensitivityClassifier.isGreeting (query : String) : Bool :=
  let query_clean := pyLower (pyStrip query)
  if (pyWords query_clean).length ≤ 5 then
    GREETING_KEYWORDS.any (fun kw => pyIn kw query_clean)
  else false

/-- `SensitivityClassifier._classify_complexity`. -/
def SensitivityClassifier.classifyComplexity (query : String) : QueryComplexity :=
  if SensitivityClassifier.isGreeting query then .greeting
  else
    let complex_count := (COMPLEX_KEYWORDS.filter (fun kw => pyIn kw query)).length
    let simple_count := (SIMPLE_KEYWORDS.filter (fun kw => pyIn kw query)).length
    let word_count := (pyWords query).length
    if 2 ≤ complex_count ∨ (1 ≤ complex_count ∧ 15 < word_count) then .complex
    else if 1 ≤ simple_count ∧ word_count < 10 then .simple
    else .moderate

/-- `SensitivityClassifier._mentions_security`. -/
def SensitivityClassifier.mentionsSecurity (query : String) : Bool :=
  SECURITY_KEYWORDS.any (fun kw => pyIn kw query)

/-- `SensitivityClassifier._should_use_local`: the ordered decision
rules, returning the flag and the reason string. -/
def SensitivityClassifier.shouldUseLocal (max_sensitivity : String)
    (has_security mentions_security : Bool) (complexity : QueryComplexity) :
    Bool × String :=
  if max_sensitivity = Sensibilidade.ALTA then
    (true, "Dados de alta sensibilidade detectados")
  else if has_security then
    (true, "Conteudo do modulo de seguranca detectado")
  else if mentions_security then
    (true, "Pergunta menciona topicos de seguranca")
  else if max_sensitivity = Sensibilidade.MEDIA ∧ complexity = QueryComplexity.simple then
    (true, "Sensibilidade media com query simples")
  else if complexity = QueryComplexity.complex ∧ max_sensitivity = Sensibilidade.BAIXA then
    (false, "Query complexa com baixa sensibilidade")
  else
    (true, "Preferencia padrao por privacidade")

/-- `SensitivityClassifier.analyze`. -/
def SensitivityClassifier.analyze (query : String) (results : List RetrievalResult) :
    SensitivityAnalysis :=
  let query_lower := pyLower query
  let max_sensitivity := SensitivityClassifier.getMaxSensitivity results
  let has_security := SensitivityClassifier.hasSecurityContent results
  let complexity := SensitivityClassifier.classifyComplexity query_lower
  let mentions_security := SensitivityClassifier.mentionsSecurity query_lower
  let decision := SensitivityClassifier.shouldUseLocal max_sensitivity has_security
    mentions_security complexity
  { max_sensitivity := max_sensitivity
    has_security_content := has_security
    query_complexity := complexity
    requires_local := decision.1
    reason := decision.2 }

/-! ### Helper lemmas for the classifier -/

theorem sensitivityOrder_le_two (s : String) : sensitivityOrder s ≤ 2 := by
  unfold sensitivityOrder
  split
  · omega
  · split
    · omega
    · split <;> omega

theorem sensitivityOrder_eq_two (s : String) (h : sensitivityOrder s = 2) :
    s = Sensibilidade.ALTA := by
  unfold sensitivityOrder at h
  split at h
  · omega
  · split at h
    · omega
    · split at h
      · assumption
      · omega

theorem sensitivityOrder_alta : sensitivityOrder Sensibilidade.ALTA = 2 := by
  decide

theorem maxSensitivityLoop_alta (l : List RetrievalResult) :
    ∀ lvl ord, ord = sensitivityOrder lvl →
    ((∃ r ∈ l, r.sensibilidade = Sensibilidade.ALTA) ∨ lvl = Sensibilidade.ALTA) →
    (maxSensitivityLoop l lvl ord).1 = Sensibilidade.ALTA := by
  induction l with
  | nil =>
    intro lvl ord _ h
    rcases h with ⟨r, hr, _⟩ | h
    · simp at hr
    · simpa [maxSensitivityLoop] using h
  | cons r rest ih =>
    intro lvl ord hord h
    unfold maxSensitivityLoop
    simp only
    split
    · -- an update happened: the new level is `r.sensibilidade`
      rename_i hlt
      apply ih _ _ rfl
      rcases h with ⟨r', hr', halta⟩ | hlvl
      · rcases List.mem_cons.mp hr' with heq | hmem
        · right; rw [heq] at halta; exact halta
        · left; exact ⟨r', hmem, halta⟩
      · -- the old level was already "alta": order 2 cannot be beaten
        exfalso
        rw [hord, hlvl, sensitivityOrder_alta] at hlt
        exact absurd (sensitivityOrder_le_two r.sensibilidade) (by omega)
    · -- no update
      rename_i hnlt
      apply ih _ _ hord
      rcases h with ⟨r', hr', halta⟩ | hlvl
      · rcases List.mem_cons.mp hr' with heq | hmem
        · -- the head itself is "alta" yet did not update: the current
          -- level already has order 2, so it is "alta"
          right
          rw [heq] at halta
          rw [halta, sensitivityOrder_alta] at hnlt
          have hle := sensitivityOrder_le_two lvl
          exact sensitivityOrder_eq_two lvl (by omega)
        · left; exact ⟨r', hmem, halta⟩
      · right; exact hlvl

theorem getMaxSensitivity_alta (results : List RetrievalResult)
    (h : ∃ r ∈ results, r.sensibilidade = Sensibilidade.ALTA) :
    SensitivityClassifier.getMaxSensitivity results = Sensibilidade.ALTA := by
  unfold SensitivityClassifier.getMaxSensitivity
  have hne : results ≠ [] := by
    obtain ⟨r, hr, _⟩ := h
    intro hnil; rw [hnil] at hr; simp at hr
  rw [if_neg (by simpa [List.isEmpty_iff] using hne)]
  exact maxSensitivityLoop_alta results _ _ (by decide) (Or.inl h)

theorem shouldUseLocal_of_alta (has_security mentions_security : Bool)
    (complexity : QueryComplexity) :
    (SensitivityClassifier.shouldUseLocal Sensibilidade.ALTA has_security
      mentions_security complexity).1 = true := by
  simp [SensitivityClassifier.shouldUseLocal]

theorem shouldUseLocal_of_security (max_sensitivity : String)
    (mentions_security : Bool) (complexity : QueryComplexity) :
    (SensitivityClassifier.shouldUseLocal max_sensitivity true
      mentions_security complexity).1 = true := by
  unfold SensitivityClassifier.shouldUseLocal
  split
  · rfl
  · simp

/-- C1: any high-sensitivity or security-kind retrieval result forces a
local routing recommendation, regardless of the question text. -/
theorem analyze_requires_local_of_sensitive (query : String)
    (results : List RetrievalResult)
    (h : (∃ r ∈ results, r.sensibilidade = Sensibilidade.ALTA) ∨
         (∃ r ∈ results, r.tipo = TipoConteudo.SEGURANCA)) :
    (SensitivityClassifier.analyze query results).requires_local = true := by
  unfold SensitivityClassifier.analyze
  simp only
  rcases h with halta | hsec
  · rw [getMaxSensitivity_alta results halta]
    exact shouldUseLocal_of_alta _ _ _
  · have hs : SensitivityClassifier.hasSecurityContent results = true := by
      obtain ⟨r, hr, ht⟩ := hsec
      unfold SensitivityClassifier.hasSecurityContent
      rw [List.any_eq_true]
      exact ⟨r, hr, by simp [ht]⟩
    rw [hs]
    exact shouldUseLocal_of_security _ _ _

/-- Witness for C1 at a concrete security-kind result. -/
theorem analyze_requires_local_of_sensitive_witness :
    (SensitivityClassifier.analyze "qual o total gasto"
      [⟨⟨"password", 1, "seguranca", "media", "t"⟩, 1, 0⟩]).requires_local = true :=
  analyze_requires_local_of_sensitive "qual o total gasto" _
    (Or.inr ⟨⟨⟨"password", 1, "seguranca", "media", "t"⟩, 1, 0⟩, by decide, rfl⟩)

/-- C10: with no retrieval results the analysis reports low maximum
sensitivity and no security content, and a complex question that does
not mention security vocabulary is permitted the remote provider. -/
theorem analyze_empty_results_complex_remote (query : String)
    (hcx : SensitivityClassifier.classifyComplexity (pyLower query) = QueryComplexity.complex)
    (hsec : SensitivityClassifier.mentionsSecurity (pyLower query) = false) :
    (SensitivityClassifier.analyze query []).max_sensitivity = Sensibilidade.BAIXA ∧
    (SensitivityClassifier.analyze query []).has_security_content = false ∧
    (SensitivityClassifier.analyze query []).requires_local = false := by
  simp only [SensitivityClassifier.analyze]
  rw [hcx, hsec]
  refine ⟨rfl, rfl, ?_⟩
  simp [SensitivityClassifier.getMaxSensitivity,
    SensitivityClassifier.hasSecurityContent,
    SensitivityClassifier.shouldUseLocal, Sensibilidade.BAIXA,
    Sensibilidade.ALTA, Sensibilidade.MEDIA]

/-- Witness for C10 at a concrete complex, security-free question. -/
theorem analyze_empty_results_complex_remote_witness :
    (SensitivityClassifier.analyze "analise e compare os gastos" []).requires_local = false :=
  (analyze_empty_results_complex_remote "analise e compare os gastos"
    (by decide) (by decide)).2.2

/-! ### Semantic cache (`cache/semantic.py`)

Embedding vectors are float lists in the source; they are modelled as
`List ℝ` because the similarity computation takes square roots.  The
per-owner index list and the cached payload type are explicit
parameters; the Redis round trip and TTL are not modelled (time is
out of scope). -/

/-- Elementwise dot product (`np.dot` on equal-length vectors). -/
def dotList (a b : List ℝ) : ℝ :=
  (List.zipWith (fun x y => x * y) a b).sum

/-- Euclidean norm (`np.linalg.norm`). -/
noncomputable def normList (v : List ℝ) : ℝ :=
  Real.sqrt ((v.map (fun x => x * x)).sum)

/-- `SemanticCache._cosine_similarity`: returns `0.0` when either
vector has zero norm, otherwise the normalized dot product. -/
noncomputable def cosineSimilarity (e1 e2 : List ℝ) : ℝ :=
  if normList e1 = 0 ∨ normList e2 = 0 then 0
  else dotList e1 e2 / (normList e1 * normList e2)

/-- A cached query with its embedding and response
(`CachedQuery` dataclass); the payload type is abstract. -/
structure CachedQuery (α : Type) where
  query : String
  embedding : List ℝ
  response : α
  filters_hash : String

/-- The semantic cache configuration (instance attributes of
`SemanticCache` that the modelled methods read). -/
structure SemanticCache where
  similarity_threshold : ℝ
  max_entries : Nat

/-- The scanning loop of `SemanticCache.get`: skips entries whose
filter signature differs, and keeps the response of the entry with
the strictly best score at or above the threshold. -/
noncomputable def semanticGetLoop {α : Type} (c : SemanticCache) (qe : List ℝ)
    (fh : String) : List (CachedQuery α) → Option α → ℝ → Option α × ℝ
  | [], best, bestScore => (best, bestScore)
  | e :: rest, best, bestScore =>
    if e.filters_hash ≠ fh then semanticGetLoop c qe fh rest best bestScore
    else
      let score := cosineSimilarity qe e.embedding
      if c.similarity_threshold ≤ score ∧ bestScore < score then
        semanticGetLoop c qe fh rest (some e.response) score
      else
        semanticGetLoop c qe fh rest best bestScore

/-- `SemanticCache.get` over the owner's decoded index list. -/
noncomputable def SemanticCache.get {α : Type} (c : SemanticCache) (qe : List ℝ)
    (index : List (CachedQuery α)) (fh : String) : Option (α × ℝ) :=
  if index.isEmpty then none
  else
    match semanticGetLoop c qe fh index none 0 with
    | (some r, s) => some (r, s)
    | (none, _) => none

/-- The `query.lower().strip()` normalization used by
`SemanticCache.set` when replacing an entry for the same question. -/
def pyNormalizeQuery (s : String) : String :=
  pyStrip (pyLower s)

/-- Model of the Python slice `entries[-n:]` (note that `n = 0` keeps
the whole list, exactly as in Python). -/
def pyLastSlice {α : Type} (n : Nat) (l : List α) : List α :=
  if n = 0 then l else l.drop (l.length - n)

/-- The trimming step of `SemanticCache._save_index`: keep at most
`max_entries` most recent entries. -/
def SemanticCache.saveIndexTrim {α : Type} (c : SemanticCache)
    (entries : List (CachedQuery α)) : List (CachedQuery α) :=
  pyLastSlice c.max_entries entries

/-- `SemanticCache.set`: drop any entry for the same normalized
question, append the new entry, and save the trimmed index.  Returns
the stored index list (state passing). -/
def SemanticCache.set {α : Type} (c : SemanticCache) (query : String) (qe : List ℝ)
    (response : α) (index : List (CachedQuery α)) (fh : String) :
    List (CachedQuery α) :=
  let filtered := index.filter (fun e => pyNormalizeQuery e.query ≠ pyNormalizeQuery query)
  c.saveIndexTrim (filtered ++ [⟨query, qe, response, fh⟩])

/-! ### Helper lemmas for the semantic cache -/

theorem pyLastSlice_suffix {α : Type} (n : Nat) (l : List α) :
    pyLastSlice n l <:+ l := by
  unfold pyLastSlice
  split
  · exact List.suffix_rfl
  · exact List.drop_suffix _ _

theorem pyLastSlice_length {α : Type} (n : Nat) (l : List α) (hn : 0 < n) :
    (pyLastSlice n l).length = min n l.length := by
  unfold pyLastSlice
  rw [if_neg (by omega), List.length_drop]
  omega

/-- C8: after `SemanticCache.set` the stored per-owner list has at most
`max_entries` entries, and what is kept is exactly a suffix (the most
recently appended entries) of the candidate list, of length
`min max_entries total`. -/
theorem semanticCache_set_bounded {α : Type} (c : SemanticCache) (query : String)
    (qe : List ℝ) (response : α) (index : List (CachedQuery α)) (fh : String)
    (hmax : 0 < c.max_entries) :
    (c.set query qe response index fh).length ≤ c.max_entries ∧
    (c.set query qe response index fh) <:+
      ((index.filter (fun e => pyNormalizeQuery e.query ≠ pyNormalizeQuery query)) ++
        [CachedQuery.mk query qe response fh]) ∧
    (c.set query qe response index fh).length =
      min c.max_entries
        ((index.filter (fun e => pyNormalizeQuery e.query ≠ pyNormalizeQuery query)) ++
          [CachedQuery.mk query qe response fh]).length := by
  unfold SemanticCache.set SemanticCache.saveIndexTrim
  refine ⟨?_, pyLastSlice_suffix _ _, pyLastSlice_length _ _ hmax⟩
  rw [pyLastSlice_length _ _ hmax]
  exact Nat.min_le_left _ _

/-- Witness for C8: a capacity-2 cache storing a fourth entry. -/
theorem semanticCache_set_bounded_witness :
    ((⟨1, 2⟩ : SemanticCache).set "a" [] (42 : Nat)
      [⟨"b", [], 1, ""⟩, ⟨"c", [], 2, ""⟩, ⟨"d", [], 3, ""⟩] "").length ≤ 2 :=
  (semanticCache_set_bounded (⟨1, 2⟩ : SemanticCache) "a" [] 42
    [⟨"b", [], 1, ""⟩, ⟨"c", [], 2, ""⟩, ⟨"d", [], 3, ""⟩] "" (by decide)).1

/-! ### Characterization of the `SemanticCache.get` scanning loop -/

theorem semanticGetLoop_isSome {α : Type} (c : SemanticCache) (qe : List ℝ)
    (fh : String) (l : List (CachedQuery α)) :
    ∀ (r : α) (s0 : ℝ), (semanticGetLoop c qe fh l (some r) s0).1.isSome = true := by
  induction l with
  | nil => intro r s0; simp [semanticGetLoop]
  | cons e rest ih =>
    intro r s0
    simp only [semanticGetLoop]
    split
    · exact ih r s0
    · split
      · exact ih _ _
      · exact ih r s0

theorem semanticGetLoop_le {α : Type} (c : SemanticCache) (qe : List ℝ)
    (fh : String) (l : List (CachedQuery α)) :
    ∀ (best : Option α) (s0 : ℝ), s0 ≤ (semanticGetLoop c qe fh l best s0).2 := by
  induction l with
  | nil => intro best s0; simp [semanticGetLoop]
  | cons e rest ih =>
    intro best s0
    simp only [semanticGetLoop]
    split
    · exact ih best s0
    · split
      · rename_i hcond
        exact le_trans (le_of_lt hcond.2) (ih _ _)
      · exact ih best s0

theorem semanticGetLoop_stay {α : Type} (c : SemanticCache) (qe : List ℝ)
    (fh : String) (l : List (CachedQuery α)) :
    ∀ (best : Option α) (s0 : ℝ), (semanticGetLoop c qe fh l best s0).2 = s0 →
      (semanticGetLoop c qe fh l best s0).1 = best := by
  induction l with
  | nil => intro best s0 _; simp [semanticGetLoop]
  | cons e rest ih =>
    intro best s0
    simp only [semanticGetLoop]
    split
    · exact ih best s0
    · split
      · rename_i hcond
        intro hfin
        exfalso
        have hle := semanticGetLoop_le c qe fh rest (some e.response)
          (cosineSimilarity qe e.embedding)
        rw [hfin] at hle
        exact absurd hcond.2 (not_lt.mpr hle)
      · exact ih best s0

theorem semanticGetLoop_some_exists {α : Type} (c : SemanticCache) (qe : List ℝ)
    (fh : String) (l : List (CachedQuery α)) :
    ∀ (best : Option α) (s0 : ℝ) (r : α),
      (semanticGetLoop c qe fh l best s0).1 = some r →
      (best = some r ∧ (semanticGetLoop c qe fh l best s0).2 = s0) ∨
      ∃ e ∈ l, e.filters_hash = fh ∧
        cosineSimilarity qe e.embedding = (semanticGetLoop c qe fh l best s0).2 ∧
        e.response = r ∧
        c.similarity_threshold ≤ (semanticGetLoop c qe fh l best s0).2 := by
  induction l with
  | nil =>
    intro best s0 r h
    simp only [semanticGetLoop] at h
    exact Or.inl ⟨h, rfl⟩
  | cons e rest ih =>
    intro best s0 r
    simp only [semanticGetLoop]
    split
    · intro h
      rcases ih best s0 r h with h1 | ⟨e', he', hfh, hsim, hresp, hthr⟩
      · exact Or.inl h1
      · exact Or.inr ⟨e', List.mem_cons_of_mem _ he', hfh, hsim, hresp, hthr⟩
    · rename_i hne
      have heq : e.filters_hash = fh := not_not.mp hne
      split
      · rename_i hcond
        intro h
        rcases ih _ _ r h with ⟨h1, h2⟩ | ⟨e', he', hfh, hsim, hresp, hthr⟩
        · -- the head provided the stored response and the score stayed put
          exact Or.inr ⟨e, List.mem_cons_self _ _, heq, h2.symm,
            Option.some.inj h1, by rw [h2]; exact hcond.1⟩
        · exact Or.inr ⟨e', List.mem_cons_of_mem _ he', hfh, hsim, hresp, hthr⟩
      · intro h
        rcases ih best s0 r h with h1 | ⟨e', he', hfh, hsim, hresp, hthr⟩
        · exact Or.inl h1
        · exact Or.inr ⟨e', List.mem_cons_of_mem _ he', hfh, hsim, hresp, hthr⟩

theorem semanticGetLoop_ub {α : Type} (c : SemanticCache) (qe : List ℝ)
    (fh : String) (l : List (CachedQuery α)) :
    ∀ (best : Option α) (s0 : ℝ), ∀ e ∈ l, e.filters_hash = fh →
      c.similarity_threshold ≤ cosineSimilarity qe e.embedding →
      cosineSimilarity qe e.embedding ≤ (semanticGetLoop c qe fh l best s0).2 := by
  induction l with
  | nil => intro best s0 e he; simp at he
  | cons eh rest ih =>
    intro best s0 e he hfh hthr
    rcases List.mem_cons.mp he with heq | hmem
    · subst heq
      simp only [semanticGetLoop]
      split
      · rename_i hne; exact absurd hfh hne
      · split
        · exact semanticGetLoop_le c qe fh rest _ _
        · rename_i hcond
          have hsc : cosineSimilarity qe e.embedding ≤ s0 := by
            by_contra hgt
            push_neg at hgt
            exact hcond ⟨hthr, hgt⟩
          exact le_trans hsc (semanticGetLoop_le c qe fh rest best s0)
    · simp only [semanticGetLoop]
      split
      · exact ih best s0 e hmem hfh hthr
      · split
        · exact ih _ _ e hmem hfh hthr
        · exact ih best s0 e hmem hfh hthr

theorem semanticGetLoop_first {α : Type} (c : SemanticCache) (qe : List ℝ)
    (fh : String) (l : List (CachedQuery α)) :
    ∀ (best : Option α) (s0 : ℝ), s0 < (semanticGetLoop c qe fh l best s0).2 →
      ∃ l₁ e l₂, l = l₁ ++ e :: l₂ ∧ e.filters_hash = fh ∧
        c.similarity_threshold ≤ cosineSimilarity qe e.embedding ∧
        cosineSimilarity qe e.embedding = (semanticGetLoop c qe fh l best s0).2 ∧
        (semanticGetLoop c qe fh l best s0).1 = some e.response ∧
        ∀ e' ∈ l₁, e'.filters_hash = fh →
          cosineSimilarity qe e'.embedding < cosineSimilarity qe e.embedding := by
  induction l with
  | nil =>
    intro best s0 h
    simp only [semanticGetLoop] at h
    exact absurd h (lt_irrefl s0)
  | cons eh rest ih =>
    intro best s0
    simp only [semanticGetLoop]
    split
    · -- filter-signature mismatch: the head is skipped
      rename_i hne
      intro h
      obtain ⟨l₁, e, l₂, hdec, hfh, hthr, hsim, hfst, hpre⟩ := ih best s0 h
      refine ⟨eh :: l₁, e, l₂, by rw [hdec]; rfl, hfh, hthr, hsim, hfst, ?_⟩
      intro e' he' hfh'
      rcases List.mem_cons.mp he' with he'eq | hm
      · rw [he'eq] at hfh'; exact absurd hfh' hne
      · exact hpre e' hm hfh'
    · rename_i hne
      have heq : eh.filters_hash = fh := not_not.mp hne
      split
      · -- the head updates the running best
        rename_i hcond
        intro h
        by_cases hrec : cosineSimilarity qe eh.embedding <
            (semanticGetLoop c qe fh rest (some eh.response)
              (cosineSimilarity qe eh.embedding)).2
        · obtain ⟨l₁, e, l₂, hdec, hfh, hthr, hsim, hfst, hpre⟩ :=
            ih (some eh.response) _ hrec
          refine ⟨eh :: l₁, e, l₂, by rw [hdec]; rfl, hfh, hthr, hsim, hfst, ?_⟩
          intro e' he' hfh'
          rcases List.mem_cons.mp he' with he'eq | hm
          · rw [he'eq]; rw [hsim]; exact hrec
          · exact hpre e' hm hfh'
        · have hfin : (semanticGetLoop c qe fh rest (some eh.response)
              (cosineSimilarity qe eh.embedding)).2 =
              cosineSimilarity qe eh.embedding :=
            le_antisymm (not_lt.mp hrec) (semanticGetLoop_le c qe fh rest _ _)
          have h1 := semanticGetLoop_stay c qe fh rest (some eh.response)
            (cosineSimilarity qe eh.embedding) hfin
          exact ⟨[], eh, rest, rfl, heq, hcond.1, hfin.symm, h1,
            by intro e' he'; simp at he'⟩
      · -- the head does not update the running best
        rename_i hcond
        intro h
        obtain ⟨l₁, e, l₂, hdec, hfh, hthr, hsim, hfst, hpre⟩ := ih best s0 h
        refine ⟨eh :: l₁, e, l₂, by rw [hdec]; rfl, hfh, hthr, hsim, hfst, ?_⟩
        intro e' he' hfh'
        rcases List.mem_cons.mp he' with he'eq | hm
        · rw [he'eq]
          rw [not_and_or] at hcond
          rcases hcond with hA | hB
          · push_neg at hA
            calc cosineSimilarity qe eh.embedding < c.similarity_threshold := hA
              _ ≤ cosineSimilarity qe e.embedding := hthr
          · push_neg at hB
            calc cosineSimilarity qe eh.embedding ≤ s0 := hB
              _ < (semanticGetLoop c qe fh rest best s0).2 := h
              _ = cosineSimilarity qe e.embedding := hsim.symm
        · exact hpre e' hm hfh'

theorem semanticGetLoop_all_zero {α : Type} (c : SemanticCache) (qe : List ℝ)
    (fh : String) (l : List (CachedQuery α)) (hthr : 0 < c.similarity_threshold) :
    (∀ e ∈ l, e.filters_hash = fh → cosineSimilarity qe e.embedding = 0) →
    semanticGetLoop c qe fh l none 0 = ((none : Option α), (0 : ℝ)) := by
  induction l with
  | nil => intro _; simp [semanticGetLoop]
  | cons eh rest ih =>
    intro hz
    simp only [semanticGetLoop]
    split
    · exact ih (fun e he hf => hz e (List.mem_cons_of_mem _ he) hf)
    · rename_i hne
      have heq : eh.filters_hash = fh := not_not.mp hne
      rw [if_neg ?_]
      · exact ih (fun e he hf => hz e (List.mem_cons_of_mem _ he) hf)
      · rw [hz eh (List.mem_cons_self _ _) heq]
        intro hcontra
        exact absurd hthr (not_lt.mpr hcontra.1)

/-- C4: with a positive similarity threshold, a semantic-cache lookup
hits whenever some filter-matching entry scores at or above the
threshold (threshold equality included); any returned score is at or
above the threshold and is the maximum over all filter-matching
entries; and the returned payload belongs to the first entry in list
order attaining that score (ties go to the earliest entry). -/
theorem semanticCache_get_threshold_best_first {α : Type} (c : SemanticCache)
    (qe : List ℝ) (index : List (CachedQuery α)) (fh : String)
    (hthr : 0 < c.similarity_threshold) :
    ((∃ e ∈ index, e.filters_hash = fh ∧
        c.similarity_threshold ≤ cosineSimilarity qe e.embedding) →
      (c.get qe index fh).isSome = true) ∧
    (∀ (r : α) (s : ℝ), c.get qe index fh = some (r, s) →
      c.similarity_threshold ≤ s ∧
      (∀ e ∈ index, e.filters_hash = fh → cosineSimilarity qe e.embedding ≤ s) ∧
      ∃ l₁ e l₂, index = l₁ ++ e :: l₂ ∧ e.filters_hash = fh ∧
        cosineSimilarity qe e.embedding = s ∧ e.response = r ∧
        ∀ e' ∈ l₁, e'.filters_hash = fh →
          cosineSimilarity qe e'.embedding < s) := by
  constructor
  · rintro ⟨e, he, hfh, hsc⟩
    have hemp : ¬ index.isEmpty = true := by
      intro hi
      rw [List.isEmpty_iff.mp hi] at he
      simp at he
    have hub := semanticGetLoop_ub c qe fh index none 0 e he hfh hsc
    have hpos : (0 : ℝ) < (semanticGetLoop c qe fh index none 0).2 :=
      lt_of_lt_of_le hthr (le_trans hsc hub)
    obtain ⟨l₁, e', l₂, _, _, _, _, hfst, _⟩ :=
      semanticGetLoop_first c qe fh index none 0 hpos
    unfold SemanticCache.get
    rw [if_neg hemp]
    rcases hl : semanticGetLoop c qe fh index none (0 : ℝ) with ⟨b, s⟩
    rw [hl] at hfst
    cases b with
    | none => exact absurd hfst (by simp)
    | some r => simp
  · intro r s hget
    unfold SemanticCache.get at hget
    by_cases hemp : index.isEmpty = true
    · rw [if_pos hemp] at hget
      exact absurd hget (by simp)
    · rw [if_neg hemp] at hget
      rcases hl : semanticGetLoop c qe fh index none (0 : ℝ) with ⟨b, sc⟩
      rw [hl] at hget
      cases b with
      | none => simp at hget
      | some r' =>
        simp only [Option.some.injEq, Prod.mk.injEq] at hget
        obtain ⟨hr, hs⟩ := hget
        have hfst : (semanticGetLoop c qe fh index none (0 : ℝ)).1 = some r := by
          rw [hl, hr]
        have h2 : (semanticGetLoop c qe fh index none (0 : ℝ)).2 = s := by
          rw [hl]; exact hs
        have hpos : (0 : ℝ) < (semanticGetLoop c qe fh index none 0).2 := by
          rcases lt_or_eq_of_le (semanticGetLoop_le c qe fh index none 0) with hlt | heq0
          · exact hlt
          · exfalso
            have := semanticGetLoop_stay c qe fh index none 0 heq0.symm
            rw [hfst] at this
            exact Option.some_ne_none r this
        obtain ⟨l₁, e, l₂, hdec, hfh, hthr2, hsim, hfst2, hpre⟩ :=
          semanticGetLoop_first c qe fh index none 0 hpos
        have hresp : e.response = r := by
          rw [hfst] at hfst2
          exact (Option.some.inj hfst2).symm
        refine ⟨?_, ?_, l₁, e, l₂, hdec, hfh, by rw [hsim, h2], hresp, ?_⟩
        · rw [← h2]
          exact le_trans hthr2 (le_of_eq hsim)
        · intro e' he' hfh'
          by_cases ht : c.similarity_threshold ≤ cosineSimilarity qe e'.embedding
          · rw [← h2]
            exact semanticGetLoop_ub c qe fh index none 0 e' he' hfh' ht
          · push_neg at ht
            have : c.similarity_threshold ≤ s := by
              rw [← h2]
              exact le_trans hthr2 (le_of_eq hsim)
            exact le_of_lt (lt_of_lt_of_le ht this)
        · intro e' he' hfh'
          rw [← h2, ← hsim]
          exact hpre e' he' hfh'

/-- Witness for C4: a singleton index whose entry scores exactly the
threshold (cosine similarity 1 against itself, threshold 1). -/
theorem semanticCache_get_threshold_best_first_witness :
    ((⟨1, 100⟩ : SemanticCache).get [(1 : ℝ)]
      [⟨"q", [(1 : ℝ)], (7 : Nat), ""⟩] "").isSome = true := by
  have hn : normList [(1 : ℝ)] = 1 := by
    simp [normList, Real.sqrt_one]
  have hcs : cosineSimilarity [(1 : ℝ)] [(1 : ℝ)] = 1 := by
    unfold cosineSimilarity
    rw [hn, if_neg (by norm_num)]
    simp [dotList]
  exact (semanticCache_get_threshold_best_first (⟨1, 100⟩ : SemanticCache)
    [(1 : ℝ)] [⟨"q", [(1 : ℝ)], (7 : Nat), ""⟩] "" (by norm_num)).1
    ⟨⟨"q", [(1 : ℝ)], 7, ""⟩, by simp, rfl, by rw [hcs]⟩

/-- C9: the cosine-similarity computation returns `0.0` whenever either
vector has zero norm (no division by zero), and consequently, under a
positive threshold, a zero-norm query embedding never produces a
cache hit, nor does an index whose stored embeddings all have zero
norm. -/
theorem cosineSimilarity_total_no_zero_hit {α : Type} (c : SemanticCache)
    (qe : List ℝ) (index : List (CachedQuery α)) (fh : String)
    (hthr : 0 < c.similarity_threshold) :
    (∀ a b : List ℝ, normList a = 0 ∨ normList b = 0 → cosineSimilarity a b = 0) ∧
    (normList qe = 0 → c.get qe index fh = none) ∧
    ((∀ e ∈ index, normList e.embedding = 0) → c.get qe index fh = none) := by
  have hz : ∀ a b : List ℝ, normList a = 0 ∨ normList b = 0 →
      cosineSimilarity a b = 0 := by
    intro a b h
    unfold cosineSimilarity
    rw [if_pos h]
  refine ⟨hz, ?_, ?_⟩
  · intro hq
    unfold SemanticCache.get
    split
    · rfl
    · rw [semanticGetLoop_all_zero c qe fh index hthr
        (fun e _ _ => hz qe e.embedding (Or.inl hq))]
  · intro hze
    unfold SemanticCache.get
    split
    · rfl
    · rw [semanticGetLoop_all_zero c qe fh index hthr
        (fun e he _ => hz qe e.embedding (Or.inr (hze e he)))]

/-- Witness for C9: a zero query embedding misses a nonempty index. -/
theorem cosineSimilarity_total_no_zero_hit_witness :
    (⟨1, 100⟩ : SemanticCache).get [(0 : ℝ)]
      [⟨"q", [(1 : ℝ)], (7 : Nat), ""⟩] "" = none :=
  (cosineSimilarity_total_no_zero_hit (⟨1, 100⟩ : SemanticCache) [(0 : ℝ)]
    [⟨"q", [(1 : ℝ)], (7 : Nat), ""⟩] "" (by norm_num)).2.1
    (by simp [normList, Real.sqrt_zero])

/-! ### SQL query executor (`query_engine/executor.py`)

The relational store is an external collaborator: a statement's
behaviour is a `StmtOutcome` supplied by a `DbEnv`.  The session's
`statement_timeout` setting is the piece of database state the
executor mutates (`SET` before running, `RESET` in the inner
`finally`), threaded explicitly.  Execution time and logging are not
modelled. -/

/-- Outcome of running one statement on the relational store: a result
set, an `OperationalError` with its message, or any other exception. -/
inductive StmtOutcome (V : Type) where
  | success (columns : List String) (rows : List (List V))
  | operationalError (msg : String)
  | otherError (msg : String)

/-- The relational store as a function from statement text to outcome. -/
structure DbEnv (V : Type) where
  run : String → StmtOutcome V

/-- The database session state the executor mutates: the value of
`statement_timeout` (`none` is the reset/default state). -/
structure DbState where
  statement_timeout : Option Nat
  deriving DecidableEq, Repr

/-- Executor configuration (`QueryExecutor.__init__`). -/
structure QueryExecutor where
  timeout : Nat
  max_rows : Nat
  deriving DecidableEq, Repr

/-- `QueryExecutionError`, carrying the message and `error_type`
(`'timeout'` for the `QueryTimeoutError` subclass). -/
structure QueryExecError where
  message : String
  error_type : String
  deriving DecidableEq, Repr

/-- `QueryResult` (execution time and metadata omitted: wall-clock
time is not modelled). -/
structure QueryResultM (V : Type) where
  columns : List String
  rows : List (List V)
  row_count : Nat
  sql : String
  truncated : Bool

/-- The PostgreSQL message fragment the executor looks for to
distinguish a timeout from other operational errors. -/
def timeoutMarker : String := "canceling statement due to statement timeout"

/-- `QueryExecutor.execute`: set the statement timeout, run the
statement, fetch `max_rows + 1` rows to detect truncation, serialize
values, and reset the timeout in the inner `finally` on every path
before any exception is converted. -/
def QueryExecutor.execute {V : Type} (ex : QueryExecutor) (env : DbEnv V)
    (serialize : V → V) (sql : String) (db : DbState) :
    Except QueryExecError (QueryResultM V) × DbState :=
  let db1 : DbState := { db with statement_timeout := some ex.timeout }
  match env.run sql with
  | .success cols allRows =>
    let rows := allRows.take (ex.max_rows + 1)
    let truncated := decide (ex.max_rows < rows.length)
    let kept := if ex.max_rows < rows.length then rows.take ex.max_rows else rows
    let serialized := kept.map (fun row => row.map serialize)
    (.ok { columns := cols, rows := serialized, row_count := serialized.length,
           sql := sql, truncated := truncated },
     { db1 with statement_timeout := none })
  | .operationalError msg =>
    let db2 : DbState := { db1 with statement_timeout := none }
    if pyIn timeoutMarker msg then
      (.error { message := "Query exceeded " ++ toString ex.timeout ++ " second timeout",
                error_type := "timeout" }, db2)
    else
      (.error { message := "Query execution failed: " ++ msg,
                error_type := "database_error" }, db2)
  | .otherError msg =>
    (.error { message := "Unexpected error: " ++ msg,
              error_type := "unexpected_error" },
     { db1 with statement_timeout := none })

/-- C6: a successful execution returns at most `max_rows` rows, and the
truncation flag is set exactly when the statement produced strictly
more than `max_rows` rows (detected via the `max_rows + 1` fetch). -/
theorem executor_row_cap_and_truncation {V : Type} (ex : QueryExecutor)
    (env : DbEnv V) (serialize : V → V) (sql : String) (db : DbState)
    (cols : List String) (allRows : List (List V))
    (h : env.run sql = .success cols allRows) :
    ∃ qr db', ex.execute env serialize sql db = (.ok qr, db') ∧
      qr.row_count ≤ ex.max_rows ∧
      (qr.truncated = true ↔ ex.max_rows < allRows.length) := by
  simp only [QueryExecutor.execute, h]
  refine ⟨_, _, rfl, ?_, ?_⟩
  · simp only [List.length_map]
    split
    · simp only [List.length_take]
      omega
    · rename_i hc
      simp only [List.length_take] at hc ⊢
      omega
  · simp only [decide_eq_true_eq, List.length_take]
    omega

/-- Witness for C6: three rows against a cap of two. -/
theorem executor_row_cap_and_truncation_witness :
    ∃ qr db', (⟨10, 2⟩ : QueryExecutor).execute
        ⟨fun _ => StmtOutcome.success ["c"] [[1], [2], [3]]⟩
        (fun v : Nat => v) "SELECT 1" ⟨none⟩ = (.ok qr, db') ∧
      qr.row_count ≤ 2 ∧
      (qr.truncated = true ↔ 2 < ([[1], [2], [3]] : List (List Nat)).length) :=
  executor_row_cap_and_truncation ⟨10, 2⟩
    ⟨fun _ => StmtOutcome.success ["c"] [[1], [2], [3]]⟩
    (fun v : Nat => v) "SELECT 1" ⟨none⟩ ["c"] [[1], [2], [3]] rfl

/-- C7: an operational error carrying the statement-timeout marker is
surfaced as the dedicated timeout error (never a generic execution
error), and the session's `statement_timeout` setting is reset after
execution on every path, the timeout path included. -/
theorem executor_timeout_error_and_reset {V : Type} (ex : QueryExecutor)
    (env : DbEnv V) (serialize : V → V) (sql : String) (db : DbState)
    (msg : String) (h : env.run sql = .operationalError msg)
    (hmark : pyIn timeoutMarker msg = true) :
    (∃ e, (ex.execute env serialize sql db).1 = .error e ∧
      e.error_type = "timeout") ∧
    ∀ (ex' : QueryExecutor) (env' : DbEnv V) (ser' : V → V) (sql' : String)
      (db' : DbState),
      ((ex'.execute env' ser' sql' db').2).statement_timeout = none := by
  constructor
  · simp only [QueryExecutor.execute, h]
    rw [if_pos hmark]
    exact ⟨_, rfl, rfl⟩
  · intro ex' env' ser' sql' db'
    unfold QueryExecutor.execute
    cases env'.run sql' with
    | success cols rows => rfl
    | operationalError msg' => dsimp only; split <;> rfl
    | otherError msg' => rfl

/-- Witness for C7: a statement whose run reports the timeout marker. -/
theorem executor_timeout_error_and_reset_witness :
    ∃ e, ((⟨10, 500⟩ : QueryExecutor).execute
        ⟨fun _ => StmtOutcome.operationalError timeoutMarker⟩
        (fun v : Nat => v) "SELECT 1" ⟨none⟩).1 = .error e ∧
      e.error_type = "timeout" :=
  (executor_timeout_error_and_reset ⟨10, 500⟩
    ⟨fun _ => StmtOutcome.operationalError timeoutMarker⟩
    (fun v : Nat => v) "SELECT 1" ⟨none⟩ timeoutMarker rfl (by decide)).1

/-! ### Retrieval service (`retrieval/service.py`)

The pgvector query (owner/filter predicates, the cosine-distance
annotation and `order_by('distance')`) runs on the relational store;
it is modelled by supplying the filtered candidate records with their
annotated distances and sorting them by distance.  The in-tree loop
then converts each distance to a score. -/

/-- A candidate row of the pgvector query: a content record with its
annotated cosine distance. -/
structure AnnotatedEmbedding where
  record : ContentEmbedding
  distance : ℚ
  deriving DecidableEq, Repr

/-- Retrieval service configuration. -/
structure RetrievalServiceM where
  default_top_k : Nat
  max_top_k : Nat
  deriving DecidableEq, Repr

/-- Model of Python `a or b` on an optional integer: `None` and `0`
both fall back to the default. -/
def pyOrNat (a : Option Nat) (b : Nat) : Nat :=
  match a with
  | none => b
  | some 0 => b
  | some t => t

/-- `RetrievalService.search`: clamp `top_k`, order the annotated
candidates by ascending distance (the store's `order_by`), truncate
to `top_k`, and build each result with `score = 1 - distance`. -/
def RetrievalService.search (svc : RetrievalServiceM)
    (candidates : List AnnotatedEmbedding) (top_k : Option Nat) :
    List RetrievalResult :=
  let k := min (pyOrNat top_k svc.default_top_k) svc.max_top_k
  let ordered := List.insertionSort
    (fun a b : AnnotatedEmbedding => a.distance ≤ b.distance) candidates
  (ordered.take k).map (fun a =>
    { content_embedding := a.record, score := 1 - a.distance, distance := a.distance })

/-- C5: every returned result satisfies `score = 1 - distance` exactly,
and the returned list is ordered by ascending cosine distance. -/
theorem retrieval_search_score_and_order (svc : RetrievalServiceM)
    (candidates : List AnnotatedEmbedding) (top_k : Option Nat) :
    (∀ r ∈ RetrievalService.search svc candidates top_k,
      r.score = 1 - r.distance) ∧
    (RetrievalService.search svc candidates top_k).Pairwise
      (fun r1 r2 => r1.distance ≤ r2.distance) := by
  constructor
  · intro r hr
    unfold RetrievalService.search at hr
    simp only [List.mem_map] at hr
    obtain ⟨a, _, ha⟩ := hr
    rw [← ha]
  · unfold RetrievalService.search
    rw [List.pairwise_map]
    apply List.Pairwise.sublist (List.take_sublist _ _)
    haveI : IsTotal AnnotatedEmbedding (fun a b => a.distance ≤ b.distance) :=
      ⟨fun a b => le_total a.distance b.distance⟩
    haveI : IsTrans AnnotatedEmbedding (fun a b => a.distance ≤ b.distance) :=
      ⟨fun _ _ _ hab hbc => le_trans hab hbc⟩
    exact (List.sorted_insertionSort _ candidates).imp (fun hab => hab)

/-- Witness for C5: two candidates supplied out of distance order. -/
theorem retrieval_search_score_and_order_witness :
    ∃ r ∈ RetrievalService.search ⟨10, 50⟩
        [⟨⟨"expense", 1, "financas", "baixa", "t"⟩, 1⟩,
         ⟨⟨"book", 2, "leitura", "baixa", "u"⟩, 0⟩] none,
      r.score = 1 - r.distance :=
  ⟨⟨⟨"book", 2, "leitura", "baixa", "u"⟩, 1 - 0, 0⟩,
    by norm_num [RetrievalService.search, pyOrNat, List.insertionSort,
      List.orderedInsert],
    (retrieval_search_score_and_order ⟨10, 50⟩
      [⟨⟨"expense", 1, "financas", "baixa", "t"⟩, 1⟩,
       ⟨⟨"book", 2, "leitura", "baixa", "u"⟩, 0⟩] none).1
      ⟨⟨"book", 2, "leitura", "baixa", "u"⟩, 1 - 0, 0⟩
      (by norm_num [RetrievalService.search, pyOrNat, List.insertionSort,
        List.orderedInsert])⟩

/-! ### Chat orchestrator (`chat/service.py`)

The orchestrator's collaborators that are external or absent from the
source tree (embedding service, LLM router, intent classifier, SQL
generator and validator) are function-valued parameters; the
response-cache stores are threaded as an explicit `CacheState`; the
conversation-history argument is a message list (`None` modelled as
the empty list, matching Python truthiness).  Logging and the
`metadata` dictionary of `ChatResponse` are not modelled. -/

/-- Modelled from the spec: the text-generation result returned by a
provider adapter through the router (`llm_router/router.py` is not in
the source tree); only the fields the orchestrator reads appear. -/
structure GenerationResult where
  text : String
  tokens_used : Nat

/-- Modelled from the spec: the `RoutingContext` decision record of the
missing router module; `decision` holds the enum's string value as the
orchestrator reads `decision.value`. -/
structure RoutingContext where
  max_sensitivity : String
  has_security_content : Bool
  provider_name : String
  reason : String
  decision : String

/-- Modelled from the spec: the intent classification result
(`intent_classifier.py` is not in the source tree); `should_use_sql`
is the property the orchestrator branches on. -/
structure IntentResult where
  module : String
  intent_type : String
  confidence : ℚ
  should_use_sql : Bool

/-- Built context ready for the LLM (`chat/context.py`). -/
structure BuiltContext where
  text : String
  token_count : Nat
  result_count : Nat
  truncated : Bool

/-- One conversation-history message (role/content dictionary). -/
structure ChatMessage where
  role : String
  content : String

/-- `ChatResponse` (`chat/service.py`); sources are kept as the result
records themselves and the metadata dictionary is omitted. -/
structure ChatResponse where
  answer : String
  sources : List RetrievalResult
  routing_decision : String
  provider : String
  cached : Bool := false
  cache_type : Option String := none
  sql_query : Option String := none
  sql_explanation : Option String := none
  data_rows : Option (List (List String)) := none
  execution_mode : String := "rag"
  visualization : Option String := none

/-- Model of `CacheKeyGenerator.query_key`: the real key hashes the
normalized question, owner id and filter signature; the key is
modelled by those components themselves. -/
structure ExactKey where
  owner_id : Nat
  normalized_query : String
  filter_sig : String
  deriving DecidableEq

/-- The response-cache store: the exact (hash-keyed) entries and the
per-owner semantic index lists. -/
structure CacheState where
  exact : List (ExactKey × ChatResponse)
  semantic : List (Nat × List (CachedQuery ChatResponse))

/-- Read the owner's semantic index (empty when absent). -/
def CacheState.semanticIndex (st : CacheState) (owner_id : Nat) :
    List (CachedQuery ChatResponse) :=
  match st.semantic.find? (fun p => p.1 = owner_id) with
  | some p => p.2
  | none => []

/-- Read an exact-cache entry. -/
def CacheState.getExact (st : CacheState) (k : ExactKey) : Option ChatResponse :=
  match st.exact.find? (fun p => p.1 = k) with
  | some p => some p.2
  | none => none

/-- Overwrite an exact-cache entry (keyed-store `set`). -/
def CacheState.setExact (st : CacheState) (k : ExactKey) (v : ChatResponse) :
    CacheState :=
  { st with exact := (k, v) :: st.exact.filter (fun p => p.1 ≠ k) }

/-- Overwrite the owner's semantic index. -/
def CacheState.setSemantic (st : CacheState) (owner_id : Nat)
    (idx : List (CachedQuery ChatResponse)) : CacheState :=
  { st with semantic := (owner_id, idx) :: st.semantic.filter (fun p => p.1 ≠ owner_id) }

/-- `CacheService.set` strips the cache-metadata fields before storing. -/
def stripCacheMeta (r : ChatResponse) : ChatResponse :=
  { r with cached := false, cache_type := none }

/-- `CacheService.get_exact` / `get_semantic` mark a hit with its type. -/
def markCached (r : ChatResponse) (t : String) : ChatResponse :=
  { r with cached := true, cache_type := some t }

/-- `CacheService.get`: exact match first, then semantic; reads only. -/
noncomputable def cacheServiceGet (sc : SemanticCache) (st : CacheState)
    (query : String) (qe : List ℝ) (owner_id : Nat) (fh : String) :
    Option ChatResponse :=
  match st.getExact ⟨owner_id, pyNormalizeQuery query, fh⟩ with
  | some r => some (markCached r "exact")
  | none =>
    match sc.get qe (st.semanticIndex owner_id) fh with
    | some (r, _) => some (markCached r "semantic")
    | none => none

/-- `CacheService.set`: store under the exact key, then append into the
owner's semantic index, trimming to the cap. -/
def cacheServiceSet (sc : SemanticCache) (st : CacheState) (query : String)
    (qe : List ℝ) (response : ChatResponse) (owner_id : Nat) (fh : String) :
    CacheState :=
  let cache_response := stripCacheMeta response
  let st1 := st.setExact ⟨owner_id, pyNormalizeQuery query, fh⟩ cache_response
  st1.setSemantic owner_id
    (sc.set query qe cache_response (st1.semanticIndex owner_id) fh)

/-- The orchestrator's RAG-path collaborators: embedding service,
retrieval search (runs on the relational store), context builder
(in-tree pure text formatting, abstracted), LLM router (module absent
from the source tree; contract from the spec), and the
filter-signature hash. -/
structure RagEnv (φ : Type) where
  embed : String → List ℝ
  search : String → Nat → Option φ → Nat → List ℝ → List RetrievalResult
  buildContext : List RetrievalResult → BuiltContext
  routerGenerate : String → String → List RetrievalResult → ℚ → Nat →
    List ChatMessage → GenerationResult × RoutingContext
  filtersHash : Option φ → String

/-- `ChatService._empty_response`. -/
def emptyResponse : ChatResponse :=
  { answer := "Desculpe, nao encontrei informacoes relevantes para sua pergunta no sistema."
    sources := []
    routing_decision := "none"
    provider := "none" }

/-- `ChatService._handle_rag_query`: embed, consult the cache (only
without history), retrieve, build context, route and generate, and
cache the response only when permitted (step 7's guard). -/
noncomputable def ChatService.handleRagQuery {φ : Type} (env : RagEnv φ)
    (sc : SemanticCache) (question : String) (owner_id : Nat)
    (filters : Option φ) (top_k : Nat) (use_cache : Bool) (temperature : ℚ)
    (max_tokens : Nat) (history : List ChatMessage) (st : CacheState) :
    ChatResponse × CacheState :=
  let qe := env.embed question
  let cacheHit : Option ChatResponse :=
    if use_cache ∧ history.isEmpty then
      cacheServiceGet sc st question qe owner_id (env.filtersHash filters)
    else none
  match cacheHit with
  | some c => (c, st)
  | none =>
    let results := env.search question owner_id filters top_k qe
    if results.isEmpty then (emptyResponse, st)
    else
      let built := env.buildContext results
      let gr := env.routerGenerate question built.text results temperature
        max_tokens history
      let response : ChatResponse :=
        { answer := gr.1.text
          sources := results
          routing_decision := gr.2.decision
          provider := gr.2.provider_name
          execution_mode := "rag" }
      if use_cache ∧ gr.2.max_sensitivity ≠ Sensibilidade.ALTA ∧ history.isEmpty then
        (response,
          cacheServiceSet sc st question qe response owner_id (env.filtersHash filters))
      else (response, st)

/-- C2: on the RAG path, a routing context reporting high ('alta')
maximum sensitivity, or a non-empty conversation history, means the
response is never written to either response cache: the cache state
is returned unchanged. -/
theorem rag_no_cache_write_on_sensitive_or_history {φ : Type} (env : RagEnv φ)
    (sc : SemanticCache) (question : String) (owner_id : Nat)
    (filters : Option φ) (top_k : Nat) (use_cache : Bool) (temperature : ℚ)
    (max_tokens : Nat) (history : List ChatMessage) (st : CacheState)
    (h : (env.routerGenerate question
          (env.buildContext
            (env.search question owner_id filters top_k (env.embed question))).text
          (env.search question owner_id filters top_k (env.embed question))
          temperature max_tokens history).2.max_sensitivity = Sensibilidade.ALTA ∨
        history ≠ []) :
    (ChatService.handleRagQuery env sc question owner_id filters top_k use_cache
      temperature max_tokens history st).2 = st := by
  unfold ChatService.handleRagQuery
  dsimp only
  split
  · rfl
  · split
    · rfl
    · split
      · rename_i hcond
        rcases h with halta | hhist
        · exact absurd halta hcond.2.1
        · exact absurd (List.isEmpty_iff.mp hcond.2.2) hhist
      · rfl

/-- Example RAG environment whose router always reports high
sensitivity (used by concrete instantiations below). -/
def ragEnvAlta : RagEnv Unit :=
  { embed := fun _ => []
    search := fun _ _ _ _ _ => [⟨⟨"password", 3, "seguranca", "alta", "s"⟩, 1, 0⟩]
    buildContext := fun _ => ⟨"ctx", 0, 1, false⟩
    routerGenerate := fun _ _ _ _ _ _ =>
      (⟨"resposta", 0⟩, ⟨Sensibilidade.ALTA, true, "ollama", "alta sensibilidade", "local"⟩)
    filtersHash := fun _ => "" }

/-- Witness for C2: a high-sensitivity routing context leaves the empty
cache state untouched. -/
theorem rag_no_cache_write_on_sensitive_or_history_witness :
    (ChatService.handleRagQuery ragEnvAlta ⟨1, 100⟩ "pergunta" 1 none 10 true 0
      100 [] ⟨[], []⟩).2 = (⟨[], []⟩ : CacheState) :=
  rag_no_cache_write_on_sensitive_or_history ragEnvAlta ⟨1, 100⟩ "pergunta" 1
    none 10 true 0 100 [] ⟨[], []⟩ (Or.inl rfl)

/-! ### SQL path of the orchestrator (`ChatService.query`) -/

/-- `SQLGenerationResult` fields the orchestrator reads (the generator
consults an inference provider; its remaining heuristic fields feed
only the omitted metadata). -/
structure SqlGenerationResult where
  sql : String
  explanation : String

/-- Modelled from the spec: the validator's output
(`query_engine/validator.py` is not in the source tree): the
sanitized statement and warnings. -/
structure SqlValidationResult where
  sanitized_sql : String
  warnings : List String

/-- The formatter's output fields the orchestrator reads
(`query_engine/formatter.py`). -/
structure FormattedResult where
  summary : String
  sql_query : String
  sql_explanation : String
  data : List (List String)
  row_count : Nat
  truncated : Bool
  visualization : Option String

/-- The three SQL-path exception classes the orchestrator catches:
`SQLGenerationError`, `SQLValidationError` and `QueryExecutionError`
(the timeout subclass is a `QueryExecError` with type `'timeout'`). -/
inductive SqlPathError where
  | generationError (msg : String)
  | validationError (msg : String)
  | executionError (e : QueryExecError)

/-- The orchestrator's SQL-path collaborators: intent classifier and
SQL generator/validator (modules absent from the source tree or
provider-backed; contracts from the spec), the relational store, the
in-tree executor configuration, and the formatter. -/
structure SqlEnv (V : Type) where
  classify : String → List ChatMessage → IntentResult
  generate : String → Nat → Except String SqlGenerationResult
  validate : String → Nat → Except String SqlValidationResult
  dbEnv : DbEnv V
  executor : QueryExecutor
  serialize : V → V
  format : QueryResultM V → SqlGenerationResult → String → FormattedResult

/-- `ChatService._handle_sql_query`: generate, validate, execute,
format, respond; each failing stage surfaces its own error (the
formatter itself raises none of the caught classes). -/
def ChatService.handleSqlQuery {V : Type} (senv : SqlEnv V) (question : String)
    (owner_id : Nat) (intent : IntentResult) (db : DbState) :
    Except SqlPathError ChatResponse × DbState :=
  match senv.generate question owner_id with
  | .error m => (.error (.generationError m), db)
  | .ok gen =>
    match senv.validate gen.sql owner_id with
    | .error m => (.error (.validationError m), db)
    | .ok val =>
      match senv.executor.execute senv.dbEnv senv.serialize val.sanitized_sql db with
      | (.error e, db') => (.error (.executionError e), db')
      | (.ok qr, db') =>
        let formatted := senv.format qr gen question
        (.ok { answer := formatted.summary
               sources := []
               routing_decision := "sql"
               provider := "groq"
               sql_query := some formatted.sql_query
               sql_explanation := some formatted.sql_explanation
               data_rows := some formatted.data
               execution_mode := "sql"
               visualization := formatted.visualization }, db')

/-- `ChatService.query`: classify intent; on the SQL path, catch the
three SQL-path errors and silently fall back to the RAG pipeline;
otherwise run the RAG pipeline directly. -/
noncomputable def ChatService.query {φ V : Type} (env : RagEnv φ)
    (sc : SemanticCache) (senv : SqlEnv V) (question : String) (owner_id : Nat)
    (filters : Option φ) (top_k : Nat) (use_cache : Bool) (temperature : ℚ)
    (max_tokens : Nat) (history : List ChatMessage) (st : CacheState)
    (db : DbState) : ChatResponse × CacheState × DbState :=
  let intent := senv.classify question history
  if intent.should_use_sql then
    match ChatService.handleSqlQuery senv question owner_id intent db with
    | (.ok r, db') => (r, st, db')
    | (.error _, db') =>
      let rag := ChatService.handleRagQuery env sc question owner_id filters
        top_k use_cache temperature max_tokens history st
      (rag.1, rag.2, db')
  else
    let rag := ChatService.handleRagQuery env sc question owner_id filters
      top_k use_cache temperature max_tokens history st
    (rag.1, rag.2, db)

/-- C3: when the intent selects the SQL path and generation, validation
or execution fails, `query` does not propagate the error: it returns
the RAG pipeline's response for the same question. -/
theorem query_sql_failure_falls_back_to_rag {φ V : Type} (env : RagEnv φ)
    (sc : SemanticCache) (senv : SqlEnv V) (question : String) (owner_id : Nat)
    (filters : Option φ) (top_k : Nat) (use_cache : Bool) (temperature : ℚ)
    (max_tokens : Nat) (history : List ChatMessage) (st : CacheState)
    (db : DbState) (e : SqlPathError) (db' : DbState)
    (hsql : (senv.classify question history).should_use_sql = true)
    (herr : ChatService.handleSqlQuery senv question owner_id
      (senv.classify question history) db = (.error e, db')) :
    (ChatService.query env sc senv question owner_id filters top_k use_cache
      temperature max_tokens history st db).1 =
    (ChatService.handleRagQuery env sc question owner_id filters top_k use_cache
      temperature max_tokens history st).1 := by
  unfold ChatService.query
  dsimp only
  rw [hsql, if_pos rfl, herr]

/-- Example SQL environment whose generator always fails. -/
def sqlEnvFail : SqlEnv Nat :=
  { classify := fun _ _ => ⟨"financas", "aggregation", 1, true⟩
    generate := fun _ _ => .error "no_sql"
    validate := fun s _ => .ok ⟨s, []⟩
    dbEnv := ⟨fun _ => StmtOutcome.success [] []⟩
    executor := ⟨10, 500⟩
    serialize := id
    format := fun _ _ _ => ⟨"", "", "", [], 0, false, none⟩ }

/-- Witness for C3: a failing SQL generation falls back to the RAG
pipeline's answer. -/
theorem query_sql_failure_falls_back_to_rag_witness :
    (ChatService.query ragEnvAlta ⟨1, 100⟩ sqlEnvFail "quanto gastei" 1 none 10
      true 0 100 [] ⟨[], []⟩ ⟨none⟩).1 =
    (ChatService.handleRagQuery ragEnvAlta ⟨1, 100⟩ "quanto gastei" 1 none 10
      true 0 100 [] ⟨[], []⟩).1 :=
  query_sql_failure_falls_back_to_rag ragEnvAlta ⟨1, 100⟩ sqlEnvFail
    "quanto gastei" 1 none 10 true 0 100 [] ⟨[], []⟩ ⟨none⟩
    (.generationError "no_sql") ⟨none⟩ rfl rfl

end MindLedger
